import Mathlib

/-!
Shallow embedding of the request-authentication layer and selected
coordinator commands of the `aleo-setup` repository
(`phase1-coordinator/src/rest.rs` and
`phase1-coordinator/src/commands/initialization.rs`), together with
theorems checking the natural-language specification against it.

Strings are modelled as `List Char` (`Str`); byte buffers as `List Nat`.
External collaborators (the base64 codec, the SHA-256 / BLAKE digest
primitives, the signature scheme, serde deserialization and the byte
storage) are passed as explicit function parameters, mirroring the
interface boundary drawn in the specification.
-/

namespace AleoSetup

abbrev Str := List Char

/-- Bytes of a request body or a stored file. -/
abbrev Bytes := List Nat

/-- Header name constants from `rest.rs`. -/
def BODY_DIGEST_HEADER : Str := "Digest".toList

def PUBKEY_HEADER : Str := "ATS-Pubkey".toList

def SIGNATURE_HEADER : Str := "ATS-Signature".toList

def CONTENT_LENGTH_HEADER : Str := "Content-Length".toList

/-- Participant roles, from the coordinator's `Participant` enum
(`Contributor` / `Verifier`); the rest layer builds participants with
`Participant::new_contributor` and `Participant::new_verifier`. -/
inductive Role
  | contributor
  | verifier
deriving DecidableEq, Repr

/-- A ceremony participant: public-key address plus role. -/
structure Participant where
  address : Str
  role : Role
deriving DecidableEq, Repr

def Participant.new_contributor (pubkey : Str) : Participant :=
  ⟨pubkey, Role.contributor⟩

def Participant.new_verifier (pubkey : Str) : Participant :=
  ⟨pubkey, Role.verifier⟩

/-- A `(chunk_id, contribution_id)` task, from `objects/task.rs`. -/
structure Task where
  chunkId : Nat
  contributionId : Nat
deriving DecidableEq, Repr

/-- `ResponseError` from `rest.rs`; payloads that the claims never inspect
(io messages, serde messages, join errors, ...) are kept as plain strings. -/
inductive ResponseError
  | coordinatorError (e : Str)
  | invalidHeader (header : Str)
  | invalidSignature
  | ioError (e : Str)
  | mismatchingChecksum (expected actual : Str)
  | missingRequiredHeader (header : Str)
  | missingSigningKey
  | parseError (e : Str)
  | runtimeError (e : Str)
  | serdeError (e : Str)
  | shutdownError (e : Str)
  | unauthorizedParticipant (p : Participant) (endpoint : Str)
  | unknownContributor (pubkey : Str)
  | unknownTask (t : Task)
  | verificationError (e : Str)
  | wrongDigestEncoding (e : Str)
deriving DecidableEq, Repr

/-- The HTTP statuses that appear in `rest.rs`. -/
inductive Status
  | ok
  | badRequest
  | unauthorized
  | lengthRequired
  | internalServerError
  | unprocessableEntity
deriving DecidableEq, Repr

/-- The status mapping of `impl Responder for ResponseError` in `rest.rs`
(lines 100-122): the listed authentication errors map to `BadRequest`,
`UnauthorizedParticipant` to `Unauthorized`, everything else to
`InternalServerError`. -/
def ResponseError.respondStatus : ResponseError → Status
  | .invalidHeader _ => .badRequest
  | .invalidSignature => .badRequest
  | .mismatchingChecksum _ _ => .badRequest
  | .missingRequiredHeader _ => .badRequest
  | .missingSigningKey => .badRequest
  | .unauthorizedParticipant _ _ => .unauthorized
  | .wrongDigestEncoding _ => .badRequest
  | _ => .internalServerError

/-- Rust's `str::split_once(c)`: split at the first occurrence of `c`,
returning the parts before and after it, or `none` when `c` is absent. -/
def splitOnce (c : Char) : Str → Option (Str × Str)
  | [] => none
  | x :: xs =>
    if x = c then some ([], xs)
    else (splitOnce c xs).map fun p => (x :: p.1, p.2)

/-- Digits of a decimal string, or `none` if empty or not all digits;
the accumulator carries the value parsed so far. -/
def digitsToNat : Str → Nat → Option Nat
  | [], _ => none
  | [c], acc => if c.isDigit then some (acc * 10 + (c.toNat - 48)) else none
  | c :: rest, acc =>
    if c.isDigit then digitsToNat rest (acc * 10 + (c.toNat - 48)) else none

/-- Rust's `str::parse::<usize>()`: an optional leading `+` sign followed by
one or more decimal digits (overflow is ignored since `Nat` is unbounded). -/
def parseUsize : Str → Option Nat
  | '+' :: rest => digitsToNat rest 0
  | s => digitsToNat s 0

/-- `RequestContent` from `rest.rs`: the declared body length and the
(base64) digest string retained from the `Digest` header. -/
structure RequestContent where
  len : Nat
  digest : Str
deriving DecidableEq, Repr

/-- `RequestContent::try_from_header` (rest.rs lines 148-164): take the part
of the digest header after the first `=` (`split_once('=')`), check that it
base64-decodes, parse the content length, and keep `(len, digest)`.
`decode` is the external `base64::decode` collaborator. -/
def RequestContent.try_from_header (decode : Str → Option Bytes)
    (len digestHeader : Str) : Except ResponseError RequestContent :=
  match splitOnce '=' digestHeader with
  | none => .error (.invalidHeader BODY_DIGEST_HEADER)
  | some (_, digest) =>
    match decode digest with
    | none => .error (.wrongDigestEncoding digest)
    | some _ =>
      match parseUsize len with
      | none => .error (.invalidHeader CONTENT_LENGTH_HEADER)
      | some n => .ok ⟨n, digest⟩

/-- `SignatureHeaders` from `rest.rs`: pubkey, optional body content info,
optional signature. -/
structure SignatureHeaders where
  pubkey : Str
  content : Option RequestContent
  signature : Option Str
deriving DecidableEq, Repr

/-- `SignatureHeaders::to_string` (rest.rs lines 177-182): the message on
which the signature is computed — `pubkey ‖ content_length ‖ content_digest`
when body content is present, else the pubkey alone. The length is rendered
in decimal, as Rust's `Display` for `usize` does. -/
def SignatureHeaders.toMessage (h : SignatureHeaders) : Str :=
  match h.content with
  | some content => h.pubkey ++ Nat.toDigits 10 content.len ++ content.digest
  | none => h.pubkey

/-- `SignatureHeaders::try_verify_signature` (rest.rs lines 192-197):
delegate to the external signature scheme `verify` on the message of
`toMessage`; error when no signature header was captured. -/
def SignatureHeaders.try_verify_signature (verify : Str → Str → Str → Bool)
    (h : SignatureHeaders) : Except ResponseError Bool :=
  match h.signature with
  | some sig => .ok (verify h.pubkey h.toMessage sig)
  | none => .error .missingSigningKey

/-- HTTP methods distinguished by the code. -/
inductive Method
  | get
  | post
deriving DecidableEq, Repr

/-- The parts of a Rocket `Request` that `rest.rs` reads: the method, the
four auth-related headers (each `get_one` returning an `Option`), and the
request uri. -/
structure Request where
  method : Method
  pubkeyHeader : Option Str
  signatureHeader : Option Str
  digestHeader : Option Str
  contentLengthHeader : Option Str
  uri : Str
deriving DecidableEq, Repr

/-- `impl TryFrom<&Request> for SignatureHeaders` (rest.rs lines 200-228):
require the pubkey and signature headers; on a POST request carrying a
`Digest` header additionally require `Content-Length` and parse the content
info. -/
def SignatureHeaders.tryFromRequest (decode : Str → Option Bytes)
    (r : Request) : Except ResponseError SignatureHeaders := do
  let pubkey ← match r.pubkeyHeader with
    | some p => pure p
    | none => .error (.invalidHeader PUBKEY_HEADER)
  let sig ← match r.signatureHeader with
    | some s => pure s
    | none => .error (.invalidHeader SIGNATURE_HEADER)
  let body : Option RequestContent ←
    if r.method = Method.post then
      match r.digestHeader with
      | some s =>
        match r.contentLengthHeader with
        | none => .error (.invalidHeader CONTENT_LENGTH_HEADER)
        | some contentLength => do
          let content ← RequestContent.try_from_header decode contentLength s
          pure (some content)
      | none => pure none
    else
      pure none
  pure (SignatureHeaders.mk pubkey body (some sig))

/-- `Request::verify_signature` (rest.rs lines 235-245): build the signature
headers, verify, and return the pubkey on success or `InvalidSignature` on a
failed verification. -/
def Request.verify_signature (decode : Str → Option Bytes)
    (verify : Str → Str → Str → Bool) (r : Request) :
    Except ResponseError Str := do
  let headers ← SignatureHeaders.tryFromRequest decode r
  match ← headers.try_verify_signature verify with
  | true => pure headers.pubkey
  | false => .error .invalidSignature

/-- Outcome of a Rocket request/data guard: success, or failure with the
HTTP status and the error recorded in the `Outcome::Failure` pair. -/
inductive Outcome (α : Type)
  | success (a : α)
  | failure (status : Status) (e : ResponseError)
deriving DecidableEq, Repr

/-- `impl FromRequest for Participant` (rest.rs lines 248-257): any
verification error fails the guard with status `BadRequest`; success yields
`Participant::new_contributor(pubkey)`. -/
def Participant.fromRequest (decode : Str → Option Bytes)
    (verify : Str → Str → Str → Bool) (r : Request) : Outcome Participant :=
  match r.verify_signature decode verify with
  | .ok pubkey => .success (Participant.new_contributor pubkey)
  | .error e => .failure .badRequest e

/-- `impl FromRequest for ServerAuth` (rest.rs lines 263-289). `v0` is
`environment().coordinator_verifiers()[0]`, the single designated
coordinator verifier read from the managed state (the environment module is
outside the provided sources). A verification error fails with
`BadRequest`; a verified identity different from `v0` fails with
`Unauthorized` / `UnauthorizedParticipant`. -/
def ServerAuth.fromRequest (decode : Str → Option Bytes)
    (verify : Str → Str → Str → Bool) (v0 : Participant) (r : Request) :
    Outcome Unit :=
  match r.verify_signature decode verify with
  | .error e => .failure .badRequest e
  | .ok pubkey =>
    let verifier := Participant.new_verifier pubkey
    if verifier ≠ v0 then
      .failure .unauthorized (.unauthorizedParticipant verifier r.uri)
    else
      .success ()

/-- `impl FromData for LazyJson<T>` (rest.rs lines 308-360), the body guard
of every JSON endpoint. `sha256` and `encode` are the external SHA-256 and
`base64::encode` collaborators, `decode` the external `base64::decode`, and
`deserialize` the `serde_json::from_str::<T>` collaborator (returning the
parsed value or an error message). The body stream is read truncated to the
declared content length (`data.open(len)`), then hashed and compared to the
retained digest before any deserialization. -/
def LazyJson.fromData {α : Type} (sha256 : Str → Bytes) (encode : Bytes → Str)
    (decode : Str → Option Bytes) (deserialize : Str → Except Str α)
    (r : Request) (data : Str) : Outcome α :=
  match r.digestHeader with
  | none => .failure .badRequest (.missingRequiredHeader BODY_DIGEST_HEADER)
  | some expectedDigest =>
    match r.contentLengthHeader with
    | none =>
      .failure .lengthRequired (.missingRequiredHeader CONTENT_LENGTH_HEADER)
    | some contentLength =>
      match RequestContent.try_from_header decode contentLength expectedDigest with
      | .error e => .failure .badRequest e
      | .ok expectedContent =>
        let body := data.take expectedContent.len
        let digest := encode (sha256 body)
        if digest ≠ expectedContent.digest then
          .failure .badRequest
            (.mismatchingChecksum expectedDigest expectedContent.digest)
        else
          match deserialize body with
          | .ok obj => .success obj
          | .error e => .failure .unprocessableEntity (.serdeError e)

/-! ### A concrete base64 codec

`rest.rs` calls the external `base64` crate (standard alphabet, padded).
These executable implementations are used to instantiate the abstract
`encode`/`decode` collaborator parameters in witnesses. -/

/-- Value of a character in the standard base64 alphabet. -/
def b64Val (c : Char) : Option Nat :=
  if 'A' ≤ c ∧ c ≤ 'Z' then some (c.toNat - 65)
  else if 'a' ≤ c ∧ c ≤ 'z' then some (c.toNat - 97 + 26)
  else if '0' ≤ c ∧ c ≤ '9' then some (c.toNat - 48 + 52)
  else if c = '+' then some 62
  else if c = '/' then some 63
  else none

/-- Character for a 6-bit value in the standard base64 alphabet. -/
def b64Chr (n : Nat) : Char :=
  if n < 26 then Char.ofNat (n + 65)
  else if n < 52 then Char.ofNat (n - 26 + 97)
  else if n < 62 then Char.ofNat (n - 52 + 48)
  else if n = 62 then '+'
  else '/'

/-- Standard padded base64 encoding of a byte list. -/
def base64Encode : Bytes → Str
  | [] => []
  | [b1] => [b64Chr (b1 / 4 % 64), b64Chr (b1 % 4 * 16), '=', '=']
  | [b1, b2] =>
    [b64Chr (b1 / 4 % 64), b64Chr (b1 % 4 * 16 + b2 / 16 % 16),
     b64Chr (b2 % 16 * 4), '=']
  | b1 :: b2 :: b3 :: rest =>
    b64Chr (b1 / 4 % 64) :: b64Chr (b1 % 4 * 16 + b2 / 16 % 16) ::
    b64Chr (b2 % 16 * 4 + b3 / 64 % 4) :: b64Chr (b3 % 64) ::
    base64Encode rest

/-- Standard padded base64 decoding: groups of four characters, with `=`
padding allowed only in the final group. -/
def base64Decode : Str → Option Bytes
  | [] => some []
  | [a, b, '=', '='] => do
    let v1 ← b64Val a
    let v2 ← b64Val b
    if v2 % 16 = 0 then some [v1 * 4 + v2 / 16] else none
  | [a, b, c, '='] => do
    let v1 ← b64Val a
    let v2 ← b64Val b
    let v3 ← b64Val c
    if v3 % 4 = 0 then
      some [v1 * 4 + v2 / 16, v2 % 16 * 16 + v3 / 4]
    else none
  | a :: b :: c :: d :: rest => do
    let v1 ← b64Val a
    let v2 ← b64Val b
    let v3 ← b64Val c
    let v4 ← b64Val d
    let tail ← base64Decode rest
    some ((v1 * 4 + v2 / 16) :: (v2 % 16 * 16 + v3 / 4) :: (v3 % 4 * 64 + v4) :: tail)
  | _ => none

/-! ### Contributor queue status (`get_contributor_queue_status`) -/

/-- `ContributorStatus` from `rest.rs` (lines 363-369). -/
inductive ContributorStatus
  | queue (position size : Nat)
  | round
  | finished
  | other
deriving DecidableEq, Repr

/-- The read-only view of the coordinator that
`get_contributor_queue_status` consults. The coordinator state machine
itself lives outside the provided sources; only the round component of
`queue_contributor_info`'s tuple is modelled, since the handler matches the
other three components with wildcards. -/
structure CoordView where
  isCurrentContributor : Participant → Bool
  isQueueContributor : Participant → Bool
  isFinishedContributor : Participant → Bool
  numberOfQueueContributors : Nat
  queueContributorInfo : Participant → Option (Option Nat)
  currentRoundHeight : Nat

/-- `get_contributor_queue_status` (rest.rs lines 608-639): current
contributors report `Round`; queued contributors report
`Queue(position, size)` where the position is `target_round − current_round`
when a target round is assigned and the queue size otherwise; finished
contributors report `Finished`; anything else `Other`. -/
def get_contributor_queue_status (v : CoordView) (participant : Participant) :
    ContributorStatus :=
  if v.isCurrentContributor participant then .round
  else if v.isQueueContributor participant then
    let queueSize := v.numberOfQueueContributors
    match v.queueContributorInfo participant with
    | some (some round) => .queue (round - v.currentRoundHeight) queueSize
    | some none => .queue queueSize queueSize
    | none => .other
  else if v.isFinishedContributor participant then .finished
  else .other

/-! ### Initialization (`commands/initialization.rs`) -/

/-- `ContributionLocator` from `storage`: (round_height, chunk_id,
contribution_id, is_verified). -/
structure ContributionLocator where
  roundHeight : Nat
  chunkId : Nat
  contributionId : Nat
  isVerified : Bool
deriving DecidableEq, Repr

/-- The `CoordinatorError` variants surfaced by `Initialization`. -/
inductive CoordinatorError
  | initializationFailed
  | initializationTranscriptsDiffer
  | storageReaderFailed
  | storageCopyFailed
deriving DecidableEq, Repr

/-- The byte storage collaborator (`Disk`), modelled at its interface
boundary (`initialize` / `writer` / `copy` / `reader` on locator-named byte
objects) as a map from contribution locators to file contents; the
initialization command touches only contribution-file locators. -/
def Disk := ContributionLocator → Option Bytes

/-- Update the object stored at one locator. -/
def Disk.set (d : Disk) (l : ContributionLocator) (contents : Bytes) : Disk :=
  fun l' => if l' = l then some contents else d l'

/-- `storage.initialize(locator, size)`: create the named byte object with
the given size (zero-filled). -/
def Disk.initLocator (d : Disk) (l : ContributionLocator) (size : Nat) : Disk :=
  d.set l (List.replicate size 0)

/-- `storage.reader(locator)`: read the object's contents, failing when the
locator does not exist. -/
def Disk.reader (d : Disk) (l : ContributionLocator) :
    Except CoordinatorError Bytes :=
  match d l with
  | some contents => .ok contents
  | none => .error .storageReaderFailed

/-- `storage.copy(src, dst)`: overwrite `dst` with the contents of `src`. -/
def Disk.copy (d : Disk) (src dst : ContributionLocator) :
    Except CoordinatorError Disk :=
  match d src with
  | some contents => .ok (d.set dst contents)
  | none => .error .storageCopyFailed

/-- `Initialization::check_hash` (initialization.rs lines 205-221): read
both files, compare their digests (`calculate_hash`, the external digest
collaborator `hash`), fail with `InitializationTranscriptsDiffer` on a
mismatch, and return the digest of the second (copied) file. -/
def Initialization.check_hash (hash : Bytes → Bytes) (d : Disk)
    (contributionLocator nextContributionLocator : ContributionLocator) :
    Except CoordinatorError Bytes := do
  let current ← d.reader contributionLocator
  let next ← d.reader nextContributionLocator
  let contributionHash0 := hash current
  let contributionHash1 := hash next
  if contributionHash0 ≠ contributionHash1 then
    .error .initializationTranscriptsDiffer
  else
    .ok contributionHash1

/-- `Initialization::run` (initialization.rs lines 33-92). The cryptographic
initialization itself (`Self::initialization`, delegating to the external
MPC-parameter collaborator) is modelled by `mpcInit`, which maps the
zero-initialized buffer of the expected challenge size to the bytes it
leaves in the file, or fails; `expectedChallengeSize` stands for
`Object::contribution_file_size`. The command initializes and writes the
challenge at `(round_height, chunk_id, 0, verified)`, copies it to
`(round_height + 1, chunk_id, 0, verified)`, and returns the digest checked
by `check_hash`, together with the resulting storage. -/
def Initialization.run (hash : Bytes → Bytes)
    (mpcInit : Bytes → Except Unit Bytes) (expectedChallengeSize : Nat)
    (d : Disk) (roundHeight chunkId : Nat) :
    Except CoordinatorError (Bytes × Disk) := do
  let contributionLocator : ContributionLocator :=
    ⟨roundHeight, chunkId, 0, true⟩
  let d1 := Disk.initLocator d contributionLocator expectedChallengeSize
  let contents ← match mpcInit (List.replicate expectedChallengeSize 0) with
    | .error _ => .error CoordinatorError.initializationFailed
    | .ok contents => pure contents
  let d2 := d1.set contributionLocator contents
  let nextContributionLocator : ContributionLocator :=
    ⟨roundHeight + 1, chunkId, 0, true⟩
  let d3 ← d2.copy contributionLocator nextContributionLocator
  let h ← Initialization.check_hash hash d3 contributionLocator
    nextContributionLocator
  pure (h, d3)

/-! ### The upload handler (`post_contribution_chunk`) -/

/-- A call made by the rest layer into the coordinator's write surface; the
upload handler performs the two calls of `PostChunkRequest`. Signature
locators and signatures are opaque here. -/
inductive CoordCall
  | writeContribution (locator : ContributionLocator) (contribution : Bytes)
  | writeContributionFileSignature (sigLocator : Nat) (signature : Str)
deriving DecidableEq, Repr

/-- `PostChunkRequest` from `rest.rs` (lines 372-394). -/
structure PostChunkRequest where
  contribution_locator : ContributionLocator
  contribution : Bytes
  contribution_file_signature_locator : Nat
  contribution_file_signature : Str
deriving DecidableEq, Repr

/-- `post_contribution_chunk` (rest.rs lines 478-506), instrumented with the
ordered list of coordinator calls it performs. `runCall` is the coordinator
(outside the provided sources) executing one call under the write lock. The
handler first calls `write_contribution`; on error it returns immediately;
only after that call succeeds does it call
`write_contribution_file_signature`. -/
def post_contribution_chunk (runCall : CoordCall → Except Str Unit)
    (req : PostChunkRequest) : Except ResponseError Unit × List CoordCall :=
  let wc := CoordCall.writeContribution req.contribution_locator
    req.contribution
  match runCall wc with
  | .error e => (.error (.coordinatorError e), [wc])
  | .ok () =>
    let ws := CoordCall.writeContributionFileSignature
      req.contribution_file_signature_locator req.contribution_file_signature
    match runCall ws with
    | .error e => (.error (.coordinatorError e), [wc, ws])
    | .ok () => (.ok (), [wc, ws])

/-! ### Write-lock sections and interleavings

Each `write_owned().await` in a handler delimits one atomic
exclusive-access section on the shared `Arc<RwLock<Coordinator>>`. A
mutating handler is abstracted to the ordered list of mutation events of
its sections; a concurrent execution of two handlers is any interleaving of
their section lists that preserves each handler's order. -/

/-- Mutation events performed under one write-lock acquisition. -/
inductive MutEvent
  | contributionWrite
  | signatureWrite
  | joinQueue
  | lockChunk
  | verifyChunk
  | dropParticipant
  | roundAdvance
deriving DecidableEq, Repr

/-- `post_contribution_chunk` acquires the write lock twice (rest.rs
line 486 before `write_contribution` and line 494 before
`write_contribution_file_signature`), so its mutations form two separate
exclusive sections. -/
def postChunkSections : List MutEvent :=
  [MutEvent.contributionWrite, MutEvent.signatureWrite]

/-- `join_queue` (rest.rs lines 403-415) performs its single mutation under
one write-lock acquisition. -/
def joinQueueSections : List MutEvent :=
  [MutEvent.joinQueue]

/-- All interleavings of two ordered section lists: each result preserves
the relative order of both inputs. Recursion is structural on the combined
length so the function reduces definitionally. -/
def interleavingsFuel : Nat → List MutEvent → List MutEvent →
    List (List MutEvent)
  | _, [], ys => [ys]
  | _, x :: xs, [] => [x :: xs]
  | 0, _, _ => []
  | fuel + 1, x :: xs, y :: ys =>
    (interleavingsFuel fuel xs (y :: ys)).map (x :: ·) ++
      (interleavingsFuel fuel (x :: xs) ys).map (y :: ·)

/-- All order-preserving interleavings of two section lists. -/
def interleavings (xs ys : List MutEvent) : List (List MutEvent) :=
  interleavingsFuel (xs.length + ys.length) xs ys

/-! ### State-threaded request guards (frame property)

The signature-verification pipeline of `rest.rs` takes `&self` on the
request and acquires no write lock on the coordinator; translated into
state-passing style over the coordinator state, each guard returns the
state it was given. `CoordState` abstracts the full ceremony state
(registry, queue, locks, round, storage). -/

/-- Ceremony state for the frame property: the environment's designated
coordinator verifier (which `ServerAuth` reads under a read lock) plus the
mutable ceremony history, abstracted to the list of mutation events applied
so far. -/
structure CoordState where
  coordinatorVerifierHead : Participant
  events : List MutEvent
deriving DecidableEq, Repr

/-- `impl FromRequest for Participant` in state-passing style: the guard
only reads request headers and verifies the signature, so the coordinator
state passes through every step unchanged. -/
def Participant.fromRequestSt (decode : Str → Option Bytes)
    (verify : Str → Str → Str → Bool) (r : Request) (s : CoordState) :
    Outcome Participant × CoordState :=
  (Participant.fromRequest decode verify r, s)

/-- `impl FromRequest for ServerAuth` in state-passing style: it reads the
environment's designated verifier from the managed state under a read lock
and mutates nothing. -/
def ServerAuth.fromRequestSt (decode : Str → Option Bytes)
    (verify : Str → Str → Str → Bool) (r : Request) (s : CoordState) :
    Outcome Unit × CoordState :=
  (ServerAuth.fromRequest decode verify s.coordinatorVerifierHead r, s)

/-! ## Theorems -/

/-- On a POST request whose four auth headers are present and whose content
info parses, the captured signature headers are exactly
`(pubkey, some content, some sig)`. -/
theorem tryFromRequest_post_body (decode : Str → Option Bytes) (r : Request)
    (pubkey sig dh cl : Str) (content : RequestContent)
    (hm : r.method = Method.post) (hp : r.pubkeyHeader = some pubkey)
    (hs : r.signatureHeader = some sig) (hd : r.digestHeader = some dh)
    (hc : r.contentLengthHeader = some cl)
    (hparse : RequestContent.try_from_header decode cl dh = .ok content) :
    SignatureHeaders.tryFromRequest decode r =
      .ok ⟨pubkey, some content, some sig⟩ := by
  simp [SignatureHeaders.tryFromRequest, hm, hp, hs, hd, hc, hparse]

/-- When the pubkey and signature headers are present and the request
carries no body digest (it is a GET, or has no `Digest` header), the
captured signature headers are `(pubkey, none, some sig)`. -/
theorem tryFromRequest_no_body (decode : Str → Option Bytes) (r : Request)
    (pubkey sig : Str) (hp : r.pubkeyHeader = some pubkey)
    (hs : r.signatureHeader = some sig)
    (hnb : r.method = Method.get ∨ r.digestHeader = none) :
    SignatureHeaders.tryFromRequest decode r =
      .ok ⟨pubkey, none, some sig⟩ := by
  rcases hnb with hm | hd
  · simp [SignatureHeaders.tryFromRequest, hm, hp, hs, pure, Except.pure, bind, Except.bind]
  · cases hme : r.method <;>
      simp [SignatureHeaders.tryFromRequest, hme, hp, hs, hd, pure, Except.pure, bind, Except.bind]

/-- Claim C2: For every request, the message whose signature is verified is
exactly the concatenation `pubkey ‖ content_length ‖ content_digest` when a
body digest is present, and exactly the pubkey string alone when no body
digest is present. -/
theorem signature_message_construction :
    (∀ (decode : Str → Option Bytes) (verify : Str → Str → Str → Bool)
        (r : Request) (pubkey sig dh cl : Str) (content : RequestContent),
      r.method = Method.post → r.pubkeyHeader = some pubkey →
      r.signatureHeader = some sig → r.digestHeader = some dh →
      r.contentLengthHeader = some cl →
      RequestContent.try_from_header decode cl dh = .ok content →
      Request.verify_signature decode verify r =
        if verify pubkey
            (pubkey ++ Nat.toDigits 10 content.len ++ content.digest) sig then
          .ok pubkey
        else
          .error .invalidSignature) ∧
    (∀ (decode : Str → Option Bytes) (verify : Str → Str → Str → Bool)
        (r : Request) (pubkey sig : Str),
      r.pubkeyHeader = some pubkey → r.signatureHeader = some sig →
      (r.method = Method.get ∨ r.digestHeader = none) →
      Request.verify_signature decode verify r =
        if verify pubkey pubkey sig then .ok pubkey
        else .error .invalidSignature) := by
  constructor
  · intro decode verify r pubkey sig dh cl content hm hp hs hd hc hparse
    rw [Request.verify_signature,
      tryFromRequest_post_body decode r pubkey sig dh cl content hm hp hs hd
        hc hparse]
    simp only [bind, Except.bind, pure, Except.pure,
      SignatureHeaders.try_verify_signature, SignatureHeaders.toMessage]
    cases hv :
        verify pubkey
          (pubkey ++ Nat.toDigits 10 content.len ++ content.digest) sig <;>
      simp [hv]
  · intro decode verify r pubkey sig hp hs hnb
    rw [Request.verify_signature,
      tryFromRequest_no_body decode r pubkey sig hp hs hnb]
    simp only [bind, Except.bind, pure, Except.pure,
      SignatureHeaders.try_verify_signature, SignatureHeaders.toMessage]
    cases hv : verify pubkey pubkey sig <;> simp [hv]

/-- Witness for C2: a concrete POST request whose signature message is
`"pk" ‖ "4" ‖ "AAAA"`, checked through the theorem at an accepting and the
pubkey-only case at a rejecting signature scheme. -/
theorem signature_message_construction_witness :
    Request.verify_signature base64Decode
        (fun _ msg _ => msg = "pk4AAAA".toList)
        ⟨Method.post, some "pk".toList, some "sg".toList,
          some "sha-256=AAAA".toList, some "4".toList, "/u".toList⟩ =
      .ok "pk".toList ∧
    Request.verify_signature base64Decode (fun _ _ _ => false)
        ⟨Method.get, some "pk".toList, some "sg".toList, none, none,
          "/u".toList⟩ =
      .error .invalidSignature := by
  constructor
  · rw [signature_message_construction.1 base64Decode
      (fun _ msg _ => msg = "pk4AAAA".toList)
      ⟨Method.post, some "pk".toList, some "sg".toList,
        some "sha-256=AAAA".toList, some "4".toList, "/u".toList⟩
      "pk".toList "sg".toList "sha-256=AAAA".toList "4".toList
      ⟨4, "AAAA".toList⟩ rfl rfl rfl rfl rfl rfl]
    rfl
  · rw [signature_message_construction.2 base64Decode (fun _ _ _ => false)
      ⟨Method.get, some "pk".toList, some "sg".toList, none, none,
        "/u".toList⟩
      "pk".toList "sg".toList rfl rfl (Or.inl rfl)]
    rfl

/-- `split_once('=')` on `label ++ "=" ++ rest` yields `(label, rest)`
whenever `label` itself contains no `=`. -/
theorem splitOnce_append (label rest : Str) (h : '=' ∉ label) :
    splitOnce '=' (label ++ '=' :: rest) = some (label, rest) := by
  induction label with
  | nil => simp [splitOnce]
  | cons c cs ih =>
    have hc : ¬(c = '=') := by
      intro hce
      exact h (by rw [hce]; exact List.mem_cons_self _ _)
    have ihm : splitOnce '=' (cs ++ '=' :: rest) = some (cs, rest) :=
      ih fun hm => h (List.mem_cons_of_mem _ hm)
    simp [splitOnce, hc, ihm]

/-- Claim C10: Parsing the content-digest header accepts any value of the
form
`label=digest` whose part after the first `=` is valid base64: the
algorithm label before the `=` is never checked (it need not be `sha-256`),
and for every such header the retained digest is exactly the substring
after the first `=`. (The content length must also parse, which the header
construction requires independently of the digest.) -/
theorem digest_header_label_unchecked
    (decode : Str → Option Bytes) (label rest len : Str) (n : Nat)
    (bs : Bytes) (hlabel : '=' ∉ label) (hlen : parseUsize len = some n)
    (hb64 : decode rest = some bs) :
    RequestContent.try_from_header decode len (label ++ '=' :: rest) =
      .ok ⟨n, rest⟩ := by
  rw [RequestContent.try_from_header, splitOnce_append label rest hlabel]
  simp [hb64, hlen]

/-- Witness for C10: the header value `md5=AAAA` — a non-`sha-256` label —
is accepted and retains exactly `AAAA`. -/
theorem digest_header_label_unchecked_witness :
    RequestContent.try_from_header base64Decode "17".toList
        ("md5".toList ++ '=' :: "AAAA".toList) =
      .ok ⟨17, "AAAA".toList⟩ :=
  digest_header_label_unchecked base64Decode "md5".toList "AAAA".toList
    "17".toList 17 [0, 0, 0] (by decide) rfl rfl

/-- Claim C1: For every POST request carrying a body, if the declared
Digest header value does not equal the base64-encoded SHA-256 digest of the
received body bytes, the request fails with `MismatchingChecksum` and JSON
deserialization of the body is never attempted (the outcome holds for every
deserializer, which is quantified); deserialization happens only after the
digest equality check succeeds (a successful outcome forces the digest
equality and is produced by the deserializer on the checked body). -/
theorem digest_checked_before_deserialization {α : Type}
    (sha256 : Str → Bytes) (encode : Bytes → Str)
    (decode : Str → Option Bytes) (deserialize : Str → Except Str α)
    (r : Request) (data expectedDigest contentLength : Str)
    (content : RequestContent)
    (hd : r.digestHeader = some expectedDigest)
    (hc : r.contentLengthHeader = some contentLength)
    (hparse : RequestContent.try_from_header decode contentLength
      expectedDigest = .ok content) :
    (encode (sha256 (data.take content.len)) ≠ content.digest →
      LazyJson.fromData sha256 encode decode deserialize r data =
        .failure .badRequest
          (.mismatchingChecksum expectedDigest content.digest)) ∧
    (∀ obj,
      LazyJson.fromData sha256 encode decode deserialize r data =
          .success obj →
      encode (sha256 (data.take content.len)) = content.digest ∧
      deserialize (data.take content.len) = .ok obj) := by
  constructor
  · intro hne
    simp [LazyJson.fromData, hd, hc, hparse, hne]
  · intro obj hsucc
    by_cases heq : encode (sha256 (data.take content.len)) = content.digest
    · refine ⟨heq, ?_⟩
      cases hdes : deserialize (data.take content.len) with
      | ok o =>
        simp [LazyJson.fromData, hd, hc, hparse, heq, hdes] at hsucc
        rw [← hsucc]
      | error e =>
        simp [LazyJson.fromData, hd, hc, hparse, heq, hdes] at hsucc
    · simp [LazyJson.fromData, hd, hc, hparse, heq] at hsucc

/-- Witness for C1: a body hashing (under a concrete digest collaborator)
to base64 `AQ==` while the header declares `sha-256=AAAA` is rejected with
`MismatchingChecksum`, whatever the deserializer would have returned. -/
theorem digest_checked_before_deserialization_witness :
    LazyJson.fromData (α := Nat) (fun _ => [1]) base64Encode base64Decode
        (fun _ => .ok 0)
        ⟨Method.post, some "pk".toList, some "sg".toList,
          some "sha-256=AAAA".toList, some "3".toList, "/u".toList⟩
        "abc".toList =
      .failure .badRequest
        (.mismatchingChecksum "sha-256=AAAA".toList "AAAA".toList) :=
  (digest_checked_before_deserialization (fun _ => [1]) base64Encode
    base64Decode (fun _ => .ok 0)
    ⟨Method.post, some "pk".toList, some "sg".toList,
      some "sha-256=AAAA".toList, some "3".toList, "/u".toList⟩
    "abc".toList "sha-256=AAAA".toList "3".toList ⟨3, "AAAA".toList⟩
    rfl rfl rfl).1 (by decide)

/-- A missing pubkey header aborts header capture with
`InvalidHeader(ATS-Pubkey)`. -/
theorem tryFromRequest_no_pubkey (decode : Str → Option Bytes) (r : Request)
    (hp : r.pubkeyHeader = none) :
    SignatureHeaders.tryFromRequest decode r =
      .error (.invalidHeader PUBKEY_HEADER) := by
  simp [SignatureHeaders.tryFromRequest, hp, bind, Except.bind, pure,
    Except.pure]

/-- A missing signature header aborts header capture with
`InvalidHeader(ATS-Signature)`. -/
theorem tryFromRequest_no_signature (decode : Str → Option Bytes)
    (r : Request) (pk : Str) (hp : r.pubkeyHeader = some pk)
    (hs : r.signatureHeader = none) :
    SignatureHeaders.tryFromRequest decode r =
      .error (.invalidHeader SIGNATURE_HEADER) := by
  simp [SignatureHeaders.tryFromRequest, hp, hs, bind, Except.bind, pure,
    Except.pure]

/-- A header-capture error propagates unchanged through
`Request::verify_signature`. -/
theorem verify_signature_error (decode : Str → Option Bytes)
    (verify : Str → Str → Str → Bool) (r : Request) (e : ResponseError)
    (h : SignatureHeaders.tryFromRequest decode r = .error e) :
    Request.verify_signature decode verify r = .error e := by
  simp [Request.verify_signature, h, bind, Except.bind]

/-- With pubkey and signature headers present and no body digest, a
rejecting signature scheme makes `Request::verify_signature` fail with
`InvalidSignature`. -/
theorem verify_signature_rejects (decode : Str → Option Bytes)
    (verify : Str → Str → Str → Bool) (r : Request) (pk sig : Str)
    (hp : r.pubkeyHeader = some pk) (hs : r.signatureHeader = some sig)
    (hnb : r.method = Method.get ∨ r.digestHeader = none)
    (hv : verify pk pk sig = false) :
    Request.verify_signature decode verify r = .error .invalidSignature := by
  rw [Request.verify_signature,
    tryFromRequest_no_body decode r pk sig hp hs hnb]
  simp [bind, Except.bind, SignatureHeaders.try_verify_signature,
    SignatureHeaders.toMessage, hv]

/-- Counterexample to C3 as stated: a POST body request that declares a
digest but omits the `Content-Length` header is failed by the body guard
with status `LengthRequired` (rest.rs lines 324-332), not `BadRequest`. -/
theorem missing_content_length_not_bad_request :
    LazyJson.fromData (α := Nat) (fun _ => []) base64Encode base64Decode
        (fun _ => .ok 0)
        ⟨Method.post, some "pk".toList, some "sg".toList,
          some "sha-256=AAAA".toList, none, "/u".toList⟩ "".toList =
      .failure .lengthRequired
        (.missingRequiredHeader CONTENT_LENGTH_HEADER) ∧
    Status.lengthRequired ≠ Status.badRequest :=
  ⟨rfl, by decide⟩

/-- Claim C3 (amended): Every authentication failure maps to an HTTP status
as follows: a missing required header yields BadRequest — except a missing
`Content-Length` header on a body-carrying request, which the body guard
fails with LengthRequired; a digest that is not base64-encoded yields
BadRequest; a digest mismatch yields BadRequest; a cryptographically
invalid signature yields BadRequest; a caller not authorized for a
server-only endpoint yields Unauthorized. The handler-level `Responder`
maps the corresponding error values to the same statuses. -/
theorem auth_failure_status_mapping :
    -- missing pubkey header → BadRequest
    (∀ (decode : Str → Option Bytes) (verify : Str → Str → Str → Bool)
        (r : Request), r.pubkeyHeader = none →
      Participant.fromRequest decode verify r =
        .failure .badRequest (.invalidHeader PUBKEY_HEADER)) ∧
    -- missing signature header → BadRequest
    (∀ (decode : Str → Option Bytes) (verify : Str → Str → Str → Bool)
        (r : Request) (pk : Str), r.pubkeyHeader = some pk →
      r.signatureHeader = none →
      Participant.fromRequest decode verify r =
        .failure .badRequest (.invalidHeader SIGNATURE_HEADER)) ∧
    -- missing Digest header on the body guard → BadRequest
    (∀ (α : Type) (sha256 : Str → Bytes) (encode : Bytes → Str)
        (decode : Str → Option Bytes) (des : Str → Except Str α)
        (r : Request) (data : Str), r.digestHeader = none →
      LazyJson.fromData sha256 encode decode des r data =
        .failure .badRequest (.missingRequiredHeader BODY_DIGEST_HEADER)) ∧
    -- missing Content-Length header on the body guard → LengthRequired
    (∀ (α : Type) (sha256 : Str → Bytes) (encode : Bytes → Str)
        (decode : Str → Option Bytes) (des : Str → Except Str α)
        (r : Request) (data dh : Str), r.digestHeader = some dh →
      r.contentLengthHeader = none →
      LazyJson.fromData sha256 encode decode des r data =
        .failure .lengthRequired
          (.missingRequiredHeader CONTENT_LENGTH_HEADER)) ∧
    -- digest not base64-encoded → BadRequest
    (∀ (α : Type) (sha256 : Str → Bytes) (encode : Bytes → Str)
        (decode : Str → Option Bytes) (des : Str → Except Str α)
        (r : Request) (data cl label d : Str),
      r.digestHeader = some (label ++ '=' :: d) → '=' ∉ label →
      r.contentLengthHeader = some cl → decode d = none →
      LazyJson.fromData sha256 encode decode des r data =
        .failure .badRequest (.wrongDigestEncoding d)) ∧
    -- digest mismatch → BadRequest
    (∀ (α : Type) (sha256 : Str → Bytes) (encode : Bytes → Str)
        (decode : Str → Option Bytes) (des : Str → Except Str α)
        (r : Request) (data dh cl : Str) (content : RequestContent),
      r.digestHeader = some dh → r.contentLengthHeader = some cl →
      RequestContent.try_from_header decode cl dh = .ok content →
      encode (sha256 (data.take content.len)) ≠ content.digest →
      LazyJson.fromData sha256 encode decode des r data =
        .failure .badRequest (.mismatchingChecksum dh content.digest)) ∧
    -- cryptographically invalid signature → BadRequest
    (∀ (decode : Str → Option Bytes) (verify : Str → Str → Str → Bool)
        (r : Request) (pk sig : Str), r.pubkeyHeader = some pk →
      r.signatureHeader = some sig →
      (r.method = Method.get ∨ r.digestHeader = none) →
      verify pk pk sig = false →
      Participant.fromRequest decode verify r =
        .failure .badRequest .invalidSignature) ∧
    -- caller not authorized for a server-only endpoint → Unauthorized
    (∀ (decode : Str → Option Bytes) (verify : Str → Str → Str → Bool)
        (v0 : Participant) (r : Request) (pk : Str),
      Request.verify_signature decode verify r = .ok pk →
      Participant.new_verifier pk ≠ v0 →
      ServerAuth.fromRequest decode verify v0 r =
        .failure .unauthorized
          (.unauthorizedParticipant (Participant.new_verifier pk) r.uri)) ∧
    -- the handler-level Responder maps the same error classes alike
    (∀ h, (ResponseError.invalidHeader h).respondStatus = .badRequest) ∧
    (∀ h,
      (ResponseError.missingRequiredHeader h).respondStatus = .badRequest) ∧
    (∀ e, (ResponseError.wrongDigestEncoding e).respondStatus = .badRequest) ∧
    (∀ e a,
      (ResponseError.mismatchingChecksum e a).respondStatus = .badRequest) ∧
    ResponseError.invalidSignature.respondStatus = .badRequest ∧
    (∀ p u,
      (ResponseError.unauthorizedParticipant p u).respondStatus =
        .unauthorized) := by
  refine ⟨?_, ?_, ?_, ?_, ?_, ?_, ?_, ?_, ?_, ?_, ?_, ?_, ?_, ?_⟩
  · intro decode verify r hp
    simp [Participant.fromRequest,
      verify_signature_error decode verify r _
        (tryFromRequest_no_pubkey decode r hp)]
  · intro decode verify r pk hp hs
    simp [Participant.fromRequest,
      verify_signature_error decode verify r _
        (tryFromRequest_no_signature decode r pk hp hs)]
  · intro α sha256 encode decode des r data hd
    simp [LazyJson.fromData, hd]
  · intro α sha256 encode decode des r data dh hd hc
    simp [LazyJson.fromData, hd, hc]
  · intro α sha256 encode decode des r data cl label d hd hlabel hc hdec
    rw [LazyJson.fromData, hd]
    simp only [hc, RequestContent.try_from_header,
      splitOnce_append label d hlabel, hdec]
  · intro α sha256 encode decode des r data dh cl content hd hc hparse hne
    simp [LazyJson.fromData, hd, hc, hparse, hne]
  · intro decode verify r pk sig hp hs hnb hv
    simp [Participant.fromRequest,
      verify_signature_rejects decode verify r pk sig hp hs hnb hv]
  · intro decode verify v0 r pk hok hne
    simp [ServerAuth.fromRequest, hok, hne]
  · intro h; rfl
  · intro h; rfl
  · intro e; rfl
  · intro e a; rfl
  · rfl
  · intro p u; rfl

/-- Witness for the amended C3: concrete requests exercising the missing
`Content-Length` (LengthRequired), malformed digest encoding (BadRequest),
invalid signature (BadRequest) and unauthorized server-endpoint caller
(Unauthorized) cases. -/
theorem auth_failure_status_mapping_witness :
    LazyJson.fromData (α := Nat) (fun _ => []) base64Encode base64Decode
        (fun _ => .ok 0)
        ⟨Method.post, some "pk".toList, some "sg".toList,
          some "sha-256=AAAA".toList, none, "/u".toList⟩ "".toList =
      .failure .lengthRequired
        (.missingRequiredHeader CONTENT_LENGTH_HEADER) ∧
    LazyJson.fromData (α := Nat) (fun _ => []) base64Encode base64Decode
        (fun _ => .ok 0)
        ⟨Method.post, some "pk".toList, some "sg".toList,
          some "sha-256=!!".toList, some "0".toList, "/u".toList⟩
        "".toList =
      .failure .badRequest (.wrongDigestEncoding "!!".toList) ∧
    Participant.fromRequest base64Decode (fun _ _ _ => false)
        ⟨Method.get, some "pk".toList, some "sg".toList, none, none,
          "/u".toList⟩ =
      .failure .badRequest .invalidSignature ∧
    ServerAuth.fromRequest base64Decode (fun _ _ _ => true)
        (Participant.new_verifier "v".toList)
        ⟨Method.get, some "pk".toList, some "sg".toList, none, none,
          "/stop".toList⟩ =
      .failure .unauthorized
        (.unauthorizedParticipant (Participant.new_verifier "pk".toList)
          "/stop".toList) := by
  obtain ⟨h1, h2, h3, h4, h5, h6, h7, h8, hrest⟩ := auth_failure_status_mapping
  refine ⟨?_, ?_, ?_, ?_⟩
  · exact h4 Nat (fun _ => []) base64Encode base64Decode (fun _ => .ok 0)
      ⟨Method.post, some "pk".toList, some "sg".toList,
        some "sha-256=AAAA".toList, none, "/u".toList⟩
      "".toList "sha-256=AAAA".toList rfl rfl
  · exact h5 Nat (fun _ => []) base64Encode base64Decode (fun _ => .ok 0)
      ⟨Method.post, some "pk".toList, some "sg".toList,
        some "sha-256=!!".toList, some "0".toList, "/u".toList⟩
      "".toList "0".toList "sha-256".toList "!!".toList rfl (by decide)
      rfl rfl
  · exact h7 base64Decode (fun _ _ _ => false)
      ⟨Method.get, some "pk".toList, some "sg".toList, none, none,
        "/u".toList⟩
      "pk".toList "sg".toList rfl rfl (Or.inl rfl) rfl
  · exact h8 base64Decode (fun _ _ _ => true)
      (Participant.new_verifier "v".toList)
      ⟨Method.get, some "pk".toList, some "sg".toList, none, none,
        "/stop".toList⟩
      "pk".toList rfl (by decide)

/-- Claim C4: For every request to a coordinator-only maintenance endpoint
(`/update`, `/verify`, `/stop`), the `ServerAuth` guard succeeds if and
only if the signature-verified public key, interpreted as a verifier
identity, equals the single designated coordinator verifier (the first
entry of the environment's coordinator verifiers, `v0`); any other
verified identity is rejected with `UnauthorizedParticipant` and status
`Unauthorized`. -/
theorem server_auth_designated_verifier (decode : Str → Option Bytes)
    (verify : Str → Str → Str → Bool) (v0 : Participant) (r : Request)
    (pubkey : Str)
    (hok : Request.verify_signature decode verify r = .ok pubkey) :
    (ServerAuth.fromRequest decode verify v0 r = .success () ↔
      Participant.new_verifier pubkey = v0) ∧
    (Participant.new_verifier pubkey ≠ v0 →
      ServerAuth.fromRequest decode verify v0 r =
        .failure .unauthorized
          (.unauthorizedParticipant (Participant.new_verifier pubkey)
            r.uri)) := by
  constructor
  · constructor
    · intro hsucc
      by_contra hne
      simp [ServerAuth.fromRequest, hok, hne] at hsucc
    · intro heq
      simp [ServerAuth.fromRequest, hok, heq]
  · intro hne
    simp [ServerAuth.fromRequest, hok, hne]

/-- Witness for C4: under an always-accepting signature scheme, the
designated verifier's own key passes the guard, and a different key is
rejected with `Unauthorized`. -/
theorem server_auth_designated_verifier_witness :
    ServerAuth.fromRequest base64Decode (fun _ _ _ => true)
        (Participant.new_verifier "coord".toList)
        ⟨Method.get, some "coord".toList, some "sg".toList, none, none,
          "/update".toList⟩ =
      .success () ∧
    ServerAuth.fromRequest base64Decode (fun _ _ _ => true)
        (Participant.new_verifier "coord".toList)
        ⟨Method.get, some "mallory".toList, some "sg".toList, none, none,
          "/update".toList⟩ =
      .failure .unauthorized
        (.unauthorizedParticipant
          (Participant.new_verifier "mallory".toList) "/update".toList) := by
  constructor
  · exact (server_auth_designated_verifier base64Decode (fun _ _ _ => true)
      (Participant.new_verifier "coord".toList)
      ⟨Method.get, some "coord".toList, some "sg".toList, none, none,
        "/update".toList⟩
      "coord".toList rfl).1.mpr rfl
  · exact (server_auth_designated_verifier base64Decode (fun _ _ _ => true)
      (Participant.new_verifier "coord".toList)
      ⟨Method.get, some "mallory".toList, some "sg".toList, none, none,
        "/update".toList⟩
      "mallory".toList rfl).2 (by decide)

/-- Claim C5: `Initialization::run` for a given round height and chunk id
writes the initial challenge at locator `(round_height, chunk_id, 0,
verified)`, copies it to locator `(round_height + 1, chunk_id, 0,
verified)`, and returns the digest of the copied transcript if and only if
the digests of the two stored files are equal (`check_hash`); if the
digests differ, `check_hash` fails the run with
`InitializationTranscriptsDiffer`. -/
theorem initialization_run_copy_digest :
    (∀ (hash : Bytes → Bytes) (d : Disk) (l1 l2 : ContributionLocator)
        (c1 c2 : Bytes), d l1 = some c1 → d l2 = some c2 →
      (∀ h, Initialization.check_hash hash d l1 l2 = .ok h ↔
        (hash c1 = hash c2 ∧ h = hash c2)) ∧
      (hash c1 ≠ hash c2 →
        Initialization.check_hash hash d l1 l2 =
          .error .initializationTranscriptsDiffer)) ∧
    (∀ (hash : Bytes → Bytes) (mpcInit : Bytes → Except Unit Bytes)
        (size : Nat) (d : Disk) (rh cid : Nat) (contents : Bytes),
      mpcInit (List.replicate size 0) = .ok contents →
      Initialization.run hash mpcInit size d rh cid =
        .ok (hash contents,
          ((Disk.initLocator d ⟨rh, cid, 0, true⟩ size).set ⟨rh, cid, 0, true⟩
              contents).set ⟨rh + 1, cid, 0, true⟩ contents) ∧
      (((Disk.initLocator d ⟨rh, cid, 0, true⟩ size).set ⟨rh, cid, 0, true⟩
            contents).set ⟨rh + 1, cid, 0, true⟩ contents)
          ⟨rh, cid, 0, true⟩ = some contents ∧
      (((Disk.initLocator d ⟨rh, cid, 0, true⟩ size).set ⟨rh, cid, 0, true⟩
            contents).set ⟨rh + 1, cid, 0, true⟩ contents)
          ⟨rh + 1, cid, 0, true⟩ = some contents) := by
  constructor
  · intro hash d l1 l2 c1 c2 h1 h2
    constructor
    · intro h
      by_cases heq : hash c1 = hash c2
      · simp [Initialization.check_hash, Disk.reader, h1, h2, heq, bind,
          Except.bind, pure, Except.pure, eq_comm]
      · simp [Initialization.check_hash, Disk.reader, h1, h2, heq, bind,
          Except.bind, pure, Except.pure]
    · intro hne
      simp [Initialization.check_hash, Disk.reader, h1, h2, hne, bind,
        Except.bind, pure, Except.pure]
  · intro hash mpcInit size d rh cid contents hmpc
    have hnelt : (⟨rh, cid, 0, true⟩ : ContributionLocator) ≠
        ⟨rh + 1, cid, 0, true⟩ := by
      intro hcontr
      exact absurd (congrArg ContributionLocator.roundHeight hcontr)
        (Nat.ne_of_lt (Nat.lt_succ_self rh))
    refine ⟨?_, ?_, ?_⟩
    · simp [Initialization.run, hmpc, Disk.copy, Disk.set, Disk.reader,
        Initialization.check_hash, Disk.initLocator, hnelt, bind,
        Except.bind, pure, Except.pure]
    · simp [Disk.set, hnelt]
    · simp [Disk.set]

/-- Witness for C5: a concrete one-byte initialization run stores `[7]` at
both `(0, 0, 0, verified)` and `(1, 0, 0, verified)` and returns its
digest; and a storage whose two files hash differently makes `check_hash`
fail with `InitializationTranscriptsDiffer`. -/
theorem initialization_run_copy_digest_witness :
    Initialization.run (fun b => b) (fun _ => .ok [7]) 1 (fun _ => none)
        0 0 =
      .ok ([7],
        Disk.set
          (Disk.set (Disk.initLocator (fun _ => none) ⟨0, 0, 0, true⟩ 1)
            ⟨0, 0, 0, true⟩ [7]) ⟨1, 0, 0, true⟩ [7]) ∧
    Initialization.check_hash (fun b => b)
        (fun l => if l = ⟨0, 0, 0, true⟩ then some [1]
          else if l = ⟨1, 0, 0, true⟩ then some [2] else none)
        ⟨0, 0, 0, true⟩ ⟨1, 0, 0, true⟩ =
      .error .initializationTranscriptsDiffer := by
  constructor
  · exact (initialization_run_copy_digest.2 (fun b => b) (fun _ => .ok [7])
      1 (fun _ => none) 0 0 [7] rfl).1
  · exact ((initialization_run_copy_digest.1 (fun b => b)
      (fun l => if l = ⟨0, 0, 0, true⟩ then some [1]
        else if l = ⟨1, 0, 0, true⟩ then some [2] else none)
      ⟨0, 0, 0, true⟩ ⟨1, 0, 0, true⟩ [1] [2] (by decide) (by decide)).2
      (by decide))

/-- Claim C6: In the chunk-upload operation, the contribution bytes are
written before the contribution file signature, and if the contribution
write fails the operation returns the error without ever writing the
signature; the signature is persisted only after the contribution write has
succeeded. The instrumented trace of coordinator calls makes the order
explicit: it is always `write_contribution` first, and a signature write
appears only when `write_contribution` succeeded. -/
theorem contribution_written_before_signature
    (runCall : CoordCall → Except Str Unit) (req : PostChunkRequest) :
    (∀ e,
      runCall (.writeContribution req.contribution_locator
          req.contribution) = .error e →
      post_contribution_chunk runCall req =
        (.error (.coordinatorError e),
          [CoordCall.writeContribution req.contribution_locator
            req.contribution]) ∧
      ∀ sl s, CoordCall.writeContributionFileSignature sl s ∉
        (post_contribution_chunk runCall req).2) ∧
    (∀ sl s,
      CoordCall.writeContributionFileSignature sl s ∈
          (post_contribution_chunk runCall req).2 →
      runCall (.writeContribution req.contribution_locator
          req.contribution) = .ok () ∧
      (post_contribution_chunk runCall req).2 =
        [CoordCall.writeContribution req.contribution_locator
           req.contribution,
         CoordCall.writeContributionFileSignature
           req.contribution_file_signature_locator
           req.contribution_file_signature]) := by
  constructor
  · intro e herr
    constructor
    · simp [post_contribution_chunk, herr]
    · intro sl s
      simp [post_contribution_chunk, herr]
  · intro sl s hmem
    cases hwc : runCall (.writeContribution req.contribution_locator
        req.contribution) with
    | error e =>
      simp [post_contribution_chunk, hwc] at hmem
    | ok u =>
      cases u
      refine ⟨rfl, ?_⟩
      cases hws : runCall (.writeContributionFileSignature
          req.contribution_file_signature_locator
          req.contribution_file_signature) with
      | error e => simp [post_contribution_chunk, hwc, hws]
      | ok v => cases v; simp [post_contribution_chunk, hwc, hws]

/-- Witness for C6: a coordinator rejecting the contribution write makes
the handler return that error with a trace containing no signature write;
an accepting coordinator yields the two calls in order. -/
theorem contribution_written_before_signature_witness :
    post_contribution_chunk
        (fun c => match c with
          | .writeContribution _ _ => .error "full".toList
          | _ => .ok ())
        ⟨⟨1, 0, 1, false⟩, [9], 4, "sig".toList⟩ =
      (.error (.coordinatorError "full".toList),
        [CoordCall.writeContribution ⟨1, 0, 1, false⟩ [9]]) ∧
    (post_contribution_chunk (fun _ => .ok ())
        ⟨⟨1, 0, 1, false⟩, [9], 4, "sig".toList⟩).2 =
      [CoordCall.writeContribution ⟨1, 0, 1, false⟩ [9],
       CoordCall.writeContributionFileSignature 4 "sig".toList] := by
  constructor
  · exact ((contribution_written_before_signature
      (fun c => match c with
        | .writeContribution _ _ => .error "full".toList
        | _ => .ok ())
      ⟨⟨1, 0, 1, false⟩, [9], 4, "sig".toList⟩).1 "full".toList rfl).1
  · exact ((contribution_written_before_signature (fun _ => .ok ())
      ⟨⟨1, 0, 1, false⟩, [9], 4, "sig".toList⟩).2 4 "sig".toList
      (by decide)).2

/-- Claim C7: For every participant that is in the contributor queue (and
not a current contributor), the queue-status operation returns queue
position `target_round − current_round_height` when the participant has an
assigned target round, and returns the queue length (number of queued
contributors) when it has none. -/
theorem queue_position_formula (v : CoordView) (p : Participant)
    (hcur : v.isCurrentContributor p = false)
    (hq : v.isQueueContributor p = true) :
    (∀ round, v.queueContributorInfo p = some (some round) →
      get_contributor_queue_status v p =
        .queue (round - v.currentRoundHeight)
          v.numberOfQueueContributors) ∧
    (v.queueContributorInfo p = some none →
      get_contributor_queue_status v p =
        .queue v.numberOfQueueContributors
          v.numberOfQueueContributors) := by
  constructor
  · intro round hinfo
    simp [get_contributor_queue_status, hcur, hq, hinfo]
  · intro hinfo
    simp [get_contributor_queue_status, hcur, hq, hinfo]

/-- Witness for C7: a queued contributor with target round 7 at current
round 3 and a five-entry queue is at position 4; one without a target round
is at position 5. -/
theorem queue_position_formula_witness :
    get_contributor_queue_status
        ⟨fun _ => false, fun _ => true, fun _ => false, 5,
          fun _ => some (some 7), 3⟩
        (Participant.new_contributor "pk".toList) =
      .queue 4 5 ∧
    get_contributor_queue_status
        ⟨fun _ => false, fun _ => true, fun _ => false, 5,
          fun _ => some none, 3⟩
        (Participant.new_contributor "pk".toList) =
      .queue 5 5 := by
  constructor
  · exact (queue_position_formula
      ⟨fun _ => false, fun _ => true, fun _ => false, 5,
        fun _ => some (some 7), 3⟩
      (Participant.new_contributor "pk".toList) rfl rfl).1 7 rfl
  · exact (queue_position_formula
      ⟨fun _ => false, fun _ => true, fun _ => false, 5,
        fun _ => some none, 3⟩
      (Participant.new_contributor "pk".toList) rfl rfl).2 rfl

/-- Claim C8: Request signature verification is a pure check: for every
request, verifying the signature headers — whether through the
`Participant` guard or the `ServerAuth` guard, and whether it succeeds or
fails — leaves the entire coordinator ceremony state unchanged. This holds
by construction of the translation: the source guards take only read access
to the managed coordinator. -/
theorem signature_verification_pure (decode : Str → Option Bytes)
    (verify : Str → Str → Str → Bool) (r : Request) (s : CoordState) :
    (Participant.fromRequestSt decode verify r s).2 = s ∧
    (ServerAuth.fromRequestSt decode verify r s).2 = s :=
  ⟨rfl, rfl⟩

/-- Counterexample to C9 as stated: the upload handler's contribution write
and signature write happen under two separate write-lock acquisitions, so
the schedule `contributionWrite · joinQueue · signatureWrite` is a valid
interleaving of the upload handler with a concurrent `join_queue` — another
mutation IS observable between a single upload request's two writes, and
the schedule coincides with neither serial order. -/
theorem upload_not_serialized_counterexample :
    [MutEvent.contributionWrite, MutEvent.joinQueue,
        MutEvent.signatureWrite] ∈
      interleavings postChunkSections joinQueueSections ∧
    [MutEvent.contributionWrite, MutEvent.joinQueue,
        MutEvent.signatureWrite] ≠
      postChunkSections ++ joinQueueSections ∧
    [MutEvent.contributionWrite, MutEvent.joinQueue,
        MutEvent.signatureWrite] ≠
      joinQueueSections ++ postChunkSections := by
  decide

/-- Claim C9 (amended): Each coordinator mutation performed under a single
write-lock acquisition is exclusive and serialized — two single-section
operations admit only the two serial orders. But the upload request
consists of two separate write-lock sections (the handler drops and
re-acquires the lock between its contribution write and its signature
write), so exactly one non-serial interleaving with a concurrent mutating
operation exists, and it places that mutation between the upload's two
writes. -/
theorem write_lock_sections_serialized :
    interleavings joinQueueSections [MutEvent.lockChunk] =
      [[MutEvent.joinQueue, MutEvent.lockChunk],
       [MutEvent.lockChunk, MutEvent.joinQueue]] ∧
    interleavings postChunkSections joinQueueSections =
      [[MutEvent.contributionWrite, MutEvent.signatureWrite,
         MutEvent.joinQueue],
       [MutEvent.contributionWrite, MutEvent.joinQueue,
         MutEvent.signatureWrite],
       [MutEvent.joinQueue, MutEvent.contributionWrite,
         MutEvent.signatureWrite]] := by
  decide

end AleoSetup
